import Mathlib

/-!
Formal model of the gardening grid simulation (soil biogeochemistry, plant
lifecycle, structures, pests and weeds), shallowly embedded in Lean 4 with
exact rational arithmetic in place of JS numbers.  Each definition mirrors
the corresponding function of the source (config.js, soil.js, plant.js,
square.js, structure.js, utils.js); theorems settle the specification
claims about the simulation.
-/

namespace GardeningSim

/-- JS `Math.max` on the rationals of this model (kernel-reducible). -/
def jsMax (a b : ℚ) : ℚ := if a ≤ b then b else a

/-- JS `Math.min` on the rationals of this model (kernel-reducible). -/
def jsMin (a b : ℚ) : ℚ := if b ≤ a then b else a

/-- JS `Math.max` on integers. -/
def jsMaxI (a b : ℤ) : ℤ := if a ≤ b then b else a

/-- JS `Math.min` on the natural-valued growth stage. -/
def jsMinN (a b : ℕ) : ℕ := if a ≤ b then a else b

/-- JS helper `clamp(value, min, max) = Math.max(min, Math.min(max, value))`
(utils.js). -/
def clamp (value lo hi : ℚ) : ℚ := jsMax lo (jsMin hi value)

/-- JS falsy-default on numbers: `x || d` yields `d` exactly when `x = 0`
(no NaN/undefined exist in this model). -/
def jsOr (x d : ℚ) : ℚ := if x = 0 then d else x

/-- JS `Math.round` for the non-negative arguments it receives here:
round half away from zero, i.e. `floor (q + 1/2)`. -/
def jsRound (q : ℚ) : ℤ := ⌊q + 1/2⌋

/-! Configuration constants (config.js `SimulationConfig`), restricted to the
entries the modelled functions read. -/

namespace THRESHOLDS
def wet : ℚ := 80
def moist : ℚ := 30
def compactionMax : ℚ := 100
def oxygenHigh : ℚ := 80
def lowOxygenForRoots : ℚ := 30
def microbeHigh : ℚ := 100
def microbeActive : ℚ := 50
def omLowForMicrobes : ℚ := 5
def highOMAcidify : ℚ := 70
def phMax : ℚ := 9
def phMin : ℚ := 4
def phOptimalLow : ℚ := 5.5
def phOptimalHigh : ℚ := 6
def microbeOptimalPhLow : ℚ := 6
def microbeOptimalPhHigh : ℚ := 7.5
def microbeMinMoisture : ℚ := 15
def microbeMinBN : ℚ := 5
def soilConditionGrow : ℚ := 65
def plantTier1Maturity : ℚ := 0.15
def plantTier2Maturity : ℚ := 0.5
def plantTier3Maturity : ℚ := 0.85
def minNutrientsForFlowering : ℚ := 10
def maxTempMicrobeDeath : ℚ := 40
def minTempMicrobeSlowdown : ℚ := 10
def optimalTempMicrobeLow : ℚ := 15
def optimalTempMicrobeHigh : ℚ := 35
def pestSpawnMoisture : ℚ := 70
def pestSpawnHumidity : ℚ := 75
def nematodeWetDuration : ℕ := 8
def highMicrobesForNematodeDefense : ℚ := 70
def beneficialAttractionThreshold : ℚ := 5
def ollaMaxWater : ℚ := 200
end THRESHOLDS

namespace RATES
def soilDegradeMoist : ℚ := 0.01
def soilDegradeWet : ℚ := 0.02
def acidifyRateHighOM : ℚ := 0.02
def tempEffectOnEvap : ℚ := 0.007
def humidityEffectOnEvap : ℚ := 0.9
def microbeGrowthOxygen : ℚ := 0.1
def microbeConversionBase : ℚ := 1
def microbeDeathLowOM : ℚ := 0.2
def tempEffectOnMicrobes : ℚ := 0.05
def weedNutrientSapRate : ℚ := 0.08
def weedGrowthChance : ℚ := 0.015
def weedSpreadChance : ℚ := 0.01
def compostOM : ℚ := 12
def compostMicrobeAdd : ℚ := 5
def compostMoistureAdd : ℚ := 3
def crhMoistureReduce : ℚ := 5
def crhCompactionReduce : ℚ := 8
def crhOmAdd : ℚ := 2
def crhPhIncrease : ℚ := 0.1
def sandMoistureReduce : ℚ := 8
def tillCompactionReduce : ℚ := 20
def tillMicrobesReduce : ℚ := 5
def pestSpawnBaseChance : ℚ := 0.001
def pestLevelUpChance : ℚ := 0.01
def ladybeetleAphidRemovalChanceFactor : ℚ := 0.02
def pestYieldFactorReduction : ℚ := 0.4
def senescenceShrinkRate : ℚ := 0.001
def baseRespirationRate : ℚ := 0.001
def ollaWaterRelease : ℚ := 3.5
def ollaDistributionRadius1Ratio : ℚ := 0.7
def ollaDistributionRadius2Ratio : ℚ := 0.3
end RATES

/-- Soil state of one grid cell (soil.js `Soil`).  `wetDuration` is the
consecutive wet-tick counter; `oxygenBasePotential` is the internal
calculation variable of the class. -/
structure Soil where
  moisture : ℚ
  nutrition : ℚ
  compaction : ℚ
  microbes : ℚ
  oxygen : ℚ
  organicMatter : ℚ
  bioavailableNutrition : ℚ
  pH : ℚ
  soilCondition : ℚ
  evaporationRate : ℚ
  wetDuration : ℕ
  oxygenBasePotential : ℚ
deriving DecidableEq

/-- `Soil.updateDerivedVariables` (soil.js): recomputes nutrition,
soil condition and the oxygen base potential from the primary fields. -/
def Soil.updateDerivedVariables (s : Soil) : Soil :=
  let phFactor : ℚ :=
    if THRESHOLDS.phOptimalLow ≤ s.pH ∧ s.pH ≤ THRESHOLDS.phOptimalHigh then 100
    else
      let diff := if s.pH < THRESHOLDS.phOptimalLow then THRESHOLDS.phOptimalLow - s.pH
        else s.pH - THRESHOLDS.phOptimalHigh
      jsMax 0 (100 - (jsRound (diff * 10) : ℚ) * 10)
  let microbeNutrientFactor := clamp (jsOr s.microbes 0) 0 100
  let omFactor := clamp (jsOr s.organicMatter 0 * 2) 0 100
  let bnFactor := clamp (jsOr s.bioavailableNutrition 0 * 3) 0 100
  let moistureFactor := clamp (jsOr s.moisture 0) 0 100
  let aerationFactor := clamp (100 - jsOr s.compaction 50) 0 100
  let nutrition := clamp ((bnFactor + omFactor + phFactor + microbeNutrientFactor) / 4) 0 100
  let soilCondition := clamp ((moistureFactor + nutrition + aerationFactor + microbeNutrientFactor) / 4) 0 100
  let o2Reduction : ℚ := if jsOr s.moisture 0 ≥ THRESHOLDS.wet then 0.9 else 0
  let o2Reduction := if jsOr s.compaction 0 ≥ THRESHOLDS.compactionMax then jsMax o2Reduction 0.9 else o2Reduction
  { s with nutrition := nutrition, soilCondition := soilCondition,
           oxygenBasePotential := 100 * (1 - o2Reduction) }

/-- `Soil.addMoisture(amount)` (soil.js): clamp moisture into [0,100] and
recompute derived variables. -/
def Soil.addMoisture (s : Soil) (amount : ℚ) : Soil :=
  ({ s with moisture := clamp (s.moisture + amount) 0 100 }).updateDerivedVariables

/-- `Soil.updateMicrobes(temperature)` (soil.js): growth, death and
organic-matter to bioavailable-nutrition conversion. -/
def Soil.updateMicrobes (s : Soil) (temperature : ℚ) : Soil :=
  let currentMicrobes := s.microbes
  let currentOM := s.organicMatter
  let currentBN := s.bioavailableNutrition
  let currentOxygen := s.oxygen
  let currentMoisture := s.moisture
  let currentPH := s.pH
  let deathHeat : ℚ := if ¬temperature < THRESHOLDS.minTempMicrobeSlowdown ∧
      temperature > THRESHOLDS.maxTempMicrobeDeath then currentMicrobes * 0.5 else 0
  let microbeActivityFactor : ℚ :=
    if temperature < THRESHOLDS.minTempMicrobeSlowdown then 0.1
    else if temperature > THRESHOLDS.maxTempMicrobeDeath then 0
    else if temperature < THRESHOLDS.optimalTempMicrobeLow then
      clamp (1 - (THRESHOLDS.optimalTempMicrobeLow - temperature) * RATES.tempEffectOnMicrobes) 0.1 1
    else if temperature > THRESHOLDS.optimalTempMicrobeHigh then
      clamp (1 - (temperature - THRESHOLDS.optimalTempMicrobeHigh) * RATES.tempEffectOnMicrobes) 0.1 1
    else 1
  let microbeGrowthConditionsMet :=
    currentOxygen > THRESHOLDS.lowOxygenForRoots ∧
    currentMoisture > THRESHOLDS.microbeMinMoisture ∧
    currentBN > THRESHOLDS.microbeMinBN
  let growthDelta : ℚ :=
    if microbeGrowthConditionsMet ∧ microbeActivityFactor > 0.1 then
      (if currentOxygen > THRESHOLDS.oxygenHigh then RATES.microbeGrowthOxygen else 0) * microbeActivityFactor
    else 0
  let deathDelta : ℚ := deathHeat +
    (if currentOM < THRESHOLDS.omLowForMicrobes ∧ currentMicrobes > 0 then RATES.microbeDeathLowOM else 0)
  let conversionDelta : ℚ :=
    if currentMicrobes ≥ THRESHOLDS.microbeActive ∧ currentOM > 0 ∧ microbeActivityFactor > 0 then
      let microbePhFactor : ℚ :=
        if THRESHOLDS.microbeOptimalPhLow ≤ currentPH ∧ currentPH ≤ THRESHOLDS.microbeOptimalPhHigh then 1
        else
          let diff := if currentPH < THRESHOLDS.microbeOptimalPhLow then THRESHOLDS.microbeOptimalPhLow - currentPH
            else currentPH - THRESHOLDS.microbeOptimalPhHigh
          jsMax 0 (1 - (diff / 0.5) * 0.25)
      let conversionRate := RATES.microbeConversionBase
        * (if currentMicrobes ≥ THRESHOLDS.microbeHigh then 2 else 1)
        * microbePhFactor * microbeActivityFactor
      jsMin currentOM conversionRate
    else 0
  { s with microbes := clamp (currentMicrobes + growthDelta - deathDelta) 0 1000,
           organicMatter := jsMax 0 (currentOM - conversionDelta),
           bioavailableNutrition := jsMax 0 (currentBN + conversionDelta) }

/-- `Soil.applyEvaporation(temperature, humidity, wind, squashModifier)`
(soil.js): returns the updated soil and the evaporated amount.  Wind is a
parameter of the source function but does not scale the rate. -/
def Soil.applyEvaporation (s : Soil) (temperature humidity _wind squashModifier : ℚ) : Soil × ℚ :=
  let baseEvap := jsOr temperature 0 * RATES.tempEffectOnEvap
  let humidityFactor := 1 - (jsOr humidity 60 / 100 * RATES.humidityEffectOnEvap)
  let rate := jsMax 0 (baseEvap * humidityFactor * squashModifier)
  let evaporationAmount := rate * (jsOr s.moisture 0 / 100)
  (({ s with evaporationRate := rate }).addMoisture (-evaporationAmount), evaporationAmount)

/-- `Soil.updateDegradation()` (soil.js). -/
def Soil.updateDegradation (s : Soil) : Soil :=
  let degradeRate : ℚ :=
    if jsOr s.moisture 0 ≥ THRESHOLDS.wet then RATES.soilDegradeWet
    else if jsOr s.moisture 0 ≥ THRESHOLDS.moist then RATES.soilDegradeMoist
    else 0
  if degradeRate > 0 then
    let s1 := s.addMoisture (-degradeRate)
    { s1 with microbes := clamp (jsOr s1.microbes 0 - degradeRate) 0 1000 }
  else s

/-- `Soil.updateOxygen(plantOxygenConsumption)` (soil.js): recompute the
potential, then set oxygen to the clamped potential minus consumption. -/
def Soil.updateOxygen (s : Soil) (plantOxygenConsumption : ℚ) : Soil :=
  let s1 := s.updateDerivedVariables
  { s1 with oxygen := clamp (s1.oxygenBasePotential - plantOxygenConsumption) 0 100 }

/-- `Soil.updatePH()` (soil.js): acidification under high organic matter. -/
def Soil.updatePH (s : Soil) : Soil :=
  if jsOr s.organicMatter 0 > THRESHOLDS.highOMAcidify then
    { s with pH := clamp (s.pH - RATES.acidifyRateHighOM) THRESHOLDS.phMin THRESHOLDS.phMax }
  else s

/-- `Soil.updateWetDuration()` (soil.js). -/
def Soil.updateWetDuration (s : Soil) : Soil :=
  if jsOr s.moisture 0 ≥ THRESHOLDS.wet then { s with wetDuration := s.wetDuration + 1 }
  else { s with wetDuration := 0 }

/-- The soil operations a tick may apply to a cell, with their arguments
(spec section 4.1). -/
inductive SoilOp where
  | recomputeDerived
  | addMoisture (delta : ℚ)
  | updateMicrobes (temperature : ℚ)
  | applyEvaporation (temperature humidity wind squashModifier : ℚ)
  | updateDegradation
  | updateOxygen (plantConsumption : ℚ)
  | updatePH
  | updateWetDuration

/-- Interpretation of a soil operation as a state transformer. -/
def SoilOp.apply : SoilOp → Soil → Soil
  | .recomputeDerived, s => s.updateDerivedVariables
  | .addMoisture delta, s => s.addMoisture delta
  | .updateMicrobes temperature, s => s.updateMicrobes temperature
  | .applyEvaporation t h w m, s => (s.applyEvaporation t h w m).1
  | .updateDegradation, s => s.updateDegradation
  | .updateOxygen c, s => s.updateOxygen c
  | .updatePH, s => s.updatePH
  | .updateWetDuration, s => s.updateWetDuration

/-- A fresh soil built from `Soil.DEFAULTS` the way the constructor does:
fields from the defaults table, then `updateDerivedVariables` and
`updateOxygen()` (soil.js constructor). -/
def soilDefault : Soil :=
  (({ moisture := 50, nutrition := 50, compaction := 50, microbes := 50, oxygen := 100,
      organicMatter := 10, bioavailableNutrition := 10, pH := 7, soilCondition := 50,
      evaporationRate := 0.1, wetDuration := 0, oxygenBasePotential := 100 } : Soil)
    |>.updateDerivedVariables).updateOxygen 0

/-- The bound invariant of claim C5: moisture, compaction, oxygen,
soil condition and nutrition in [0,100], microbes in [0,1000],
pH in [4,9]. -/
def Soil.inBounds (s : Soil) : Prop :=
  0 ≤ s.moisture ∧ s.moisture ≤ 100 ∧
  0 ≤ s.compaction ∧ s.compaction ≤ 100 ∧
  0 ≤ s.oxygen ∧ s.oxygen ≤ 100 ∧
  0 ≤ s.soilCondition ∧ s.soilCondition ≤ 100 ∧
  0 ≤ s.nutrition ∧ s.nutrition ≤ 100 ∧
  0 ≤ s.microbes ∧ s.microbes ≤ 1000 ∧
  4 ≤ s.pH ∧ s.pH ≤ 9

/-! Grid geometry (utils.js `getNeighbors`). -/

def GRID_COLS : ℤ := 15
def GRID_ROWS : ℤ := 15

/-- `getNeighbors(x, y, includeDiagonals, radius)` (utils.js): coordinate
pairs of the in-grid neighbors, iterated dy-outer/dx-inner, kept when the
squared Euclidean distance is at most `radius^2`. -/
def getNeighbors (x y : ℤ) (includeDiagonals : Bool) (radius : ℕ) : List (ℤ × ℤ) :=
  ((List.range (2 * radius + 1)).flatMap fun i =>
    (List.range (2 * radius + 1)).map fun j => ((j : ℤ) - radius, (i : ℤ) - radius)).filterMap
    fun d =>
      let dx := d.1
      let dy := d.2
      if dx = 0 ∧ dy = 0 then none
      else if ¬includeDiagonals ∧ dx ≠ 0 ∧ dy ≠ 0 ∧ radius = 1 then none
      else
        let nx := x + dx
        let ny := y + dy
        if 0 ≤ nx ∧ nx < GRID_COLS ∧ 0 ≤ ny ∧ ny < GRID_ROWS ∧
            dx * dx + dy * dy ≤ (radius : ℤ) * (radius : ℤ) then some (nx, ny)
        else none

/-! Plant species properties (config.js `PLANT_PROPERTIES`), restricted to
the fields read by the modelled functions. -/

structure PlantProps where
  H2O_Mod : ℚ
  BN_Mod : ℚ
  O2_Mod : ℚ
  maxYield : ℚ
  price : ℚ
  attractsBeneficials : Bool
  wetnessSensitivity : ℚ
  suppressesNematodes : Bool
  daysToHarvestableStage : ℚ
  isPerennial : Bool
  addsOM : Bool
  addsMIC : Bool
deriving DecidableEq

/-- The `'Test'` entry of `PLANT_PROPERTIES` (used as constructor fallback). -/
def testPlantProps : PlantProps :=
  { H2O_Mod := 1, BN_Mod := 1, O2_Mod := 1, maxYield := 0, price := 0,
    attractsBeneficials := false, wetnessSensitivity := 1, suppressesNematodes := false,
    daysToHarvestableStage := 10, isPerennial := true, addsOM := false, addsMIC := false }

/-- `SimulationConfig.PLANT_PROPERTIES` as a partial lookup over species
identifiers. -/
def PLANT_PROPERTIES : String → Option PlantProps
  | "Test" => some testPlantProps
  | "Corn" => some {
      H2O_Mod := 6, BN_Mod := 5, O2_Mod := 2, maxYield := 2, price := 60,
      attractsBeneficials := false, wetnessSensitivity := 1, suppressesNematodes := false,
      daysToHarvestableStage := 60, isPerennial := false, addsOM := false, addsMIC := false }
  | "Beans" => some {
      H2O_Mod := 1, BN_Mod := 1, O2_Mod := 1, maxYield := 3, price := 40,
      attractsBeneficials := false, wetnessSensitivity := 1, suppressesNematodes := false,
      daysToHarvestableStage := 50, isPerennial := false, addsOM := true, addsMIC := true }
  | "Squash" => some {
      H2O_Mod := 1, BN_Mod := 1, O2_Mod := 1, maxYield := 1, price := 70,
      attractsBeneficials := false, wetnessSensitivity := 1, suppressesNematodes := false,
      daysToHarvestableStage := 55, isPerennial := false, addsOM := false, addsMIC := false }
  | "Tomato" => some {
      H2O_Mod := 1.2, BN_Mod := 1.8, O2_Mod := 1, maxYield := 4, price := 30,
      attractsBeneficials := false, wetnessSensitivity := 1.5, suppressesNematodes := false,
      daysToHarvestableStage := 70, isPerennial := false, addsOM := false, addsMIC := false }
  | "Basil" => some {
      H2O_Mod := 1, BN_Mod := 1, O2_Mod := 1, maxYield := 1, price := 20,
      attractsBeneficials := true, wetnessSensitivity := 1, suppressesNematodes := false,
      daysToHarvestableStage := 40, isPerennial := false, addsOM := false, addsMIC := false }
  | "Flower" => some {
      H2O_Mod := 1.5, BN_Mod := 1.5, O2_Mod := 1, maxYield := 0, price := 50,
      attractsBeneficials := true, wetnessSensitivity := 1.2, suppressesNematodes := false,
      daysToHarvestableStage := 45, isPerennial := false, addsOM := false, addsMIC := false }
  | "Marigold" => some {
      H2O_Mod := 1.6, BN_Mod := 1.2, O2_Mod := 1, maxYield := 0, price := 25,
      attractsBeneficials := true, wetnessSensitivity := 1, suppressesNematodes := true,
      daysToHarvestableStage := 50, isPerennial := false, addsOM := false, addsMIC := false }
  | _ => none

/-- Plant state (plant.js `Plant`), without the UI display cache. -/
structure Plant where
  type : String
  props : PlantProps
  size : ℚ
  rootHealth : ℚ
  rootDensity : ℚ
  CHO : ℚ
  ATP : ℚ
  stemHealth : ℚ
  leafDensity : ℚ
  stemDevelopment : ℚ
  wasPollinated : Bool
  ageTicks : ℕ
  ageDays : ℚ
  maturityProgress : ℚ
  growthStage : ℕ
deriving DecidableEq

/-- The `Plant` constructor (plant.js): unknown species fall back to the
`'Test'` species; initial values come from `SimulationConfig`. -/
def Plant.new (ptype : String) : Plant :=
  let tp : String × PlantProps :=
    match PLANT_PROPERTIES ptype with
    | some pr => (ptype, pr)
    | none => ("Test", testPlantProps)
  { type := tp.1, props := tp.2, size := 0.05, rootHealth := 100, rootDensity := 1,
    CHO := 5, ATP := 1, stemHealth := 100, leafDensity := 0.2, stemDevelopment := 0.1,
    wasPollinated := false, ageTicks := 0, ageDays := 0, maturityProgress := 0, growthStage := 0 }

/-- `Plant._handleSenescence()` (plant.js): possibly enter stage 4, apply
decline effects, and report whether the plant is finished for this tick. -/
def Plant.handleSenescence (p : Plant) : Plant × Bool :=
  let triggering := ¬p.growthStage = 4 ∧ ¬p.props.isPerennial = true ∧
    p.maturityProgress ≥ 1 ∧ p.growthStage = 3
  let isSenescent := p.growthStage = 4 ∨ triggering
  let p1 := if triggering then { p with growthStage := 4 } else p
  let p2 :=
    if isSenescent then
      let rh := jsMax 0 (jsOr p1.rootHealth 0 - 0.5)
      let sz := jsMax 0 (jsOr p1.size 0 - RATES.senescenceShrinkRate)
      let cho := jsMax 0 (jsOr p1.CHO 0 - RATES.baseRespirationRate * jsOr sz 0 * 0.1)
      let atp := jsMax 0 (jsOr p1.ATP 0 - RATES.baseRespirationRate * jsOr sz 0 * 0.05)
      { p1 with rootHealth := rh, size := sz, CHO := cho, ATP := atp }
    else p1
  (p2, decide (jsOr p2.size 0 ≤ 0 ∨ jsOr p2.rootHealth 0 ≤ 0 ∨ isSenescent))

/-- The per-tick maturity increment of `Plant._updateMaturityAndStage`
(plant.js): daily rate scaled by elapsed day fraction, soil-condition
factor and overall-health factor. -/
def Plant.progressThisTick (p : Plant) (soil : Soil) (elapsedSimMinutes : ℚ) : ℚ :=
  let overallHealthFactor :=
    clamp ((jsOr p.stemHealth 100 + jsOr p.rootHealth 0 + jsOr p.leafDensity 0 * 100) / 300) 0.1 1
  let daysToHarvestable := jsOr p.props.daysToHarvestableStage 60
  let dailyProgressRate :=
    if daysToHarvestable > 0 then THRESHOLDS.plantTier3Maturity / daysToHarvestable else 0
  let conditionFactor := clamp (jsOr soil.soilCondition 0 / THRESHOLDS.soilConditionGrow) 0.1 1.2
  dailyProgressRate * (elapsedSimMinutes / (24 * 60)) * conditionFactor * overallHealthFactor

/-- `Plant._updateMaturityAndStage(elapsedSimMinutes, square)` (plant.js):
advance maturity progress (clamped to [0,1]) and derive the growth stage
from the maturity tier thresholds, with the bioavailable-nutrition gate on
stages 2 and 3. -/
def Plant.updateMaturityAndStage (p : Plant) (soil : Soil) (elapsedSimMinutes : ℚ) : Plant :=
  let maturityProgress := clamp (jsOr p.maturityProgress 0 + p.progressThisTick soil elapsedSimMinutes) 0 1
  let p1 := { p with maturityProgress := maturityProgress }
  if p1.growthStage < 4 then
    if maturityProgress ≥ THRESHOLDS.plantTier3Maturity then
      if jsOr soil.bioavailableNutrition 0 ≥ THRESHOLDS.minNutrientsForFlowering then
        { p1 with growthStage := 3 }
      else
        { p1 with growthStage := jsMinN p1.growthStage 2 }
    else if maturityProgress ≥ THRESHOLDS.plantTier2Maturity then
      if jsOr soil.bioavailableNutrition 0 ≥ THRESHOLDS.minNutrientsForFlowering then
        { p1 with growthStage := 2 }
      else
        { p1 with growthStage := jsMinN p1.growthStage 1 }
    else if maturityProgress ≥ THRESHOLDS.plantTier1Maturity then
      { p1 with growthStage := 1 }
    else
      { p1 with growthStage := 0 }
  else p1

/-! Structures (structure.js `Structure`). -/

/-- 4-way connection record of a trellis or net. -/
structure Connections where
  top : Bool
  right : Bool
  bottom : Bool
  left : Bool
deriving DecidableEq

/-- The all-false connection record the constructor installs. -/
def Connections.none : Connections :=
  { top := false, right := false, bottom := false, left := false }

/-- Structure state (structure.js).  The source stores `waterLevel` only on
Ollas; here it is always present and 0 for other types. -/
structure Structure where
  type : String
  connections : Connections
  waterLevel : ℚ
deriving DecidableEq

/-- The `Structure` constructor: Ollas start full. -/
def Structure.new (stype : String) : Structure :=
  { type := stype, connections := Connections.none,
    waterLevel := if stype = "Olla" then THRESHOLDS.ollaMaxWater else 0 }

/-- `Structure.update(square)` (structure.js): an Olla with water releases
up to `ollaWaterRelease`, never more than it holds; returns the updated
structure and the released amount. -/
def Structure.update (st : Structure) : Structure × ℚ :=
  if st.type = "Olla" ∧ st.waterLevel > 0 then
    let releaseAmount := jsMin st.waterLevel RATES.ollaWaterRelease
    ({ st with waterLevel := st.waterLevel - releaseAmount }, releaseAmount)
  else (st, 0)

/-! Olla water distribution (square.js `updateEntities`, the
`waterReleasedByOlla > 0` block). -/

/-- The radius-1 receiving ring of the Olla block. -/
def ollaNeighbors1 (x y : ℤ) : List (ℤ × ℤ) := getNeighbors x y true 1

/-- The radius-2 receiving ring: radius-2 neighbors that are neither
radius-1 neighbors nor the cell itself. -/
def ollaNeighbors2 (x y : ℤ) : List (ℤ × ℤ) :=
  (getNeighbors x y true 2).filter fun nk => !(ollaNeighbors1 x y).contains nk && nk ≠ (x, y)

/-- Moisture passed to each radius-1 neighbor for released water `w`. -/
def ollaReleasePerNeighbor1 (x y : ℤ) (w : ℚ) : ℚ :=
  let totalRatio := RATES.ollaDistributionRadius1Ratio + RATES.ollaDistributionRadius2Ratio
  let effectiveRatio1 := if totalRatio > 0 then RATES.ollaDistributionRadius1Ratio / totalRatio else 0
  if (ollaNeighbors1 x y).length > 0 then
    w * effectiveRatio1 / ((ollaNeighbors1 x y).length : ℚ)
  else 0

/-- Moisture passed to each radius-2 neighbor for released water `w`. -/
def ollaReleasePerNeighbor2 (x y : ℤ) (w : ℚ) : ℚ :=
  let totalRatio := RATES.ollaDistributionRadius1Ratio + RATES.ollaDistributionRadius2Ratio
  let effectiveRatio2 := if totalRatio > 0 then RATES.ollaDistributionRadius2Ratio / totalRatio else 0
  if (ollaNeighbors2 x y).length > 0 then
    w * effectiveRatio2 / ((ollaNeighbors2 x y).length : ℚ)
  else 0

/-! Per-cell state (square.js `Square`), without the DOM/display caches. -/

/-- Pest entry of a cell: `{type: 'Aphids'/'Nematodes'/null, level}`. -/
structure Pests where
  type : Option String
  level : ℕ
deriving DecidableEq

/-- A grid cell: soil, local temperature, weeds, pests, and at most one
plant or structure. -/
structure Square where
  soil : Soil
  temperature : ℚ
  weeds : ℕ
  pests : Pests
  plant : Option Plant
  struct : Option Structure
deriving DecidableEq

/-- The grid map `squareState`: off-grid keys look up to `none`. -/
def Grid := ℤ × ℤ → Option Square

/-- Result object of `Square.harvestPlant()` (square.js). -/
structure HarvestResult where
  harvested : Bool
  yield : Option ℤ
  value : Option ℚ
  type : Option String
  reason : Option String
deriving DecidableEq

/-- `Square.harvestPlant()` (square.js): senescence check, harvestable-stage
and pollination gates, yield computation, and plant removal on success
(perennials included, per the source's fallthrough). -/
def Square.harvestPlant (sq : Square) : Square × HarvestResult :=
  match sq.plant with
  | none => (sq, {
      harvested := false, yield := none, value := none, type := none,
      reason := some "empty" })
  | some plant =>
    let plantProps := plant.props
    if plant.growthStage = 4 then
      (sq, {
        harvested := false, yield := none, value := none, type := some plant.type,
        reason := some "senescent" })
    else
      let harvestableStage : ℕ :=
        if plant.type = "Flower" ∨ plant.type = "Marigold" ∨ plant.type = "Basil" then 2 else 3
      let requiresPollination :=
        jsOr plantProps.maxYield 0 > 0 ∨ plant.type = "Beans" ∨ plant.type = "Squash" ∨
          plant.type = "Tomato"
      if plant.growthStage ≥ harvestableStage ∧ (¬requiresPollination ∨ plant.wasPollinated = true) then
        let soilCondFactor := clamp (jsOr sq.soil.soilCondition 0 / 100) 0 1
        let rootHealthFactor := clamp (jsOr plant.rootHealth 0 / 100) 0 1
        let potentialYieldFactor := clamp ((soilCondFactor + rootHealthFactor) / 2) 0 1
        let potentialYieldFactor :=
          if (sq.struct.map Structure.type = some "Trellis") ∧
              (plant.type = "Beans" ∨ plant.type = "Squash" ∨ plant.type = "Tomato") then
            jsMin 1 (potentialYieldFactor * 1.3)
          else potentialYieldFactor
        let potentialYieldFactor :=
          if sq.pests.type ≠ none then potentialYieldFactor * (1 - RATES.pestYieldFactorReduction)
          else potentialYieldFactor
        let harvestedYield : ℤ := jsMaxI 0 (jsRound (jsOr plantProps.maxYield 0 * potentialYieldFactor))
        let harvestedYield : ℤ :=
          if plantProps.maxYield = 0 ∧ harvestedYield = 0 ∧
              (plant.type = "Flower" ∨ plant.type = "Marigold" ∨ plant.type = "Basil") then 1
          else harvestedYield
        let moneyEarned := (harvestedYield : ℚ) * jsOr plantProps.price 0
        ({ sq with plant := none },
         { harvested := true, yield := some harvestedYield, value := some moneyEarned,
           type := some plant.type, reason := none })
      else
        let reason := "stage " ++ toString plant.growthStage
        let reason := if plant.growthStage < harvestableStage then "immature" else reason
        let reason := if requiresPollination ∧ ¬plant.wasPollinated = true then "unpollinated" else reason
        (sq, {
          harvested := false, yield := none, value := none, type := some plant.type,
          reason := some reason })

/-- `Square.tryPlanting(plantType)` (square.js): succeeds on an empty cell
(the `Plant` constructor never throws), fails when occupied. -/
def Square.tryPlanting (sq : Square) (plantType : String) : Square × Bool :=
  if sq.plant = none ∧ sq.struct = none then
    ({ sq with plant := some (Plant.new plantType) }, true)
  else (sq, false)

/-- `Square.addAmendment(type)` (square.js): compost, carbonized rice hull
or sand; unknown kinds fail without touching the soil. -/
def Square.addAmendment (sq : Square) (atype : String) : Square × Bool :=
  if atype = "compost" then
    let soil0 := { sq.soil with
      organicMatter := jsOr sq.soil.organicMatter 0 + RATES.compostOM,
      microbes := clamp (jsOr sq.soil.microbes 0 + RATES.compostMicrobeAdd) 0 1000 }
    let soil1 := soil0.addMoisture RATES.compostMoistureAdd
    ({ sq with soil := soil1.updateDerivedVariables }, true)
  else if atype = "crh" then
    let soil0 := sq.soil.addMoisture (-RATES.crhMoistureReduce)
    let soil1 := { soil0 with
      compaction := clamp (jsOr soil0.compaction 0 - RATES.crhCompactionReduce) 0 THRESHOLDS.compactionMax,
      organicMatter := jsOr soil0.organicMatter 0 + RATES.crhOmAdd,
      pH := clamp (jsOr soil0.pH 7 + RATES.crhPhIncrease) THRESHOLDS.phMin THRESHOLDS.phMax }
    ({ sq with soil := soil1.updateDerivedVariables }, true)
  else if atype = "sand" then
    ({ sq with soil := (sq.soil.addMoisture (-RATES.sandMoistureReduce)).updateDerivedVariables }, true)
  else (sq, false)

/-! Connection directions and mirrored-flag clearing
(square.js `till` / `removeEntity`). -/

/-- The four connection directions of a trellis or net. -/
inductive Dir where
  | top
  | right
  | bottom
  | left
deriving DecidableEq

/-- The opposite direction (the neighbor's flag that mirrors ours). -/
def Dir.opp : Dir → Dir
  | .top => .bottom
  | .bottom => .top
  | .left => .right
  | .right => .left

/-- The neighbor coordinate in a given direction, matching the
`ny--`/`ny++`/`nx--`/`nx++` arithmetic of the source. -/
def adj : ℤ × ℤ → Dir → ℤ × ℤ
  | (x, y), .top => (x, y - 1)
  | (x, y), .bottom => (x, y + 1)
  | (x, y), .left => (x - 1, y)
  | (x, y), .right => (x + 1, y)

/-- Read one connection flag. -/
def Connections.get : Connections → Dir → Bool
  | c, .top => c.top
  | c, .right => c.right
  | c, .bottom => c.bottom
  | c, .left => c.left

/-- The connection flag a cell exposes in direction `d`: false when the
cell is absent or holds no structure. -/
def flagAt (g : Grid) (k : ℤ × ℤ) (d : Dir) : Bool :=
  match g k with
  | some sq =>
    match sq.struct with
    | some st => st.connections.get d
    | none => false
  | none => false

/-- The neighbor-clearing loop shared by `till` and `removeEntity`
(square.js): for every direction in which the removed structure was
connected, the neighbor's mirrored flag is cleared (when that neighbor
holds a structure with connections). -/
def clearNeighborConnections (x y : ℤ) (conns : Connections) (g : Grid) : Grid :=
  fun k =>
    match g k with
    | none => none
    | some sq =>
      match sq.struct with
      | none => some sq
      | some st =>
        let c := st.connections
        let c := if conns.top = true ∧ k = (x, y - 1) then { c with bottom := false } else c
        let c := if conns.bottom = true ∧ k = (x, y + 1) then { c with top := false } else c
        let c := if conns.left = true ∧ k = (x - 1, y) then { c with right := false } else c
        let c := if conns.right = true ∧ k = (x + 1, y) then { c with left := false } else c
        some { sq with struct := some { st with connections := c } }

/-- `Square.till(squareState)` (square.js): reduce compaction and microbes,
remove weeds, remove a Trellis/Net after clearing the mirrored connection
flags on its connected neighbors, and recompute derived soil variables. -/
def till (x y : ℤ) (g : Grid) : Grid :=
  match g (x, y) with
  | none => g
  | some sq =>
    let newSoil := { sq.soil with
      compaction := jsMax 0 (jsOr sq.soil.compaction 0 - RATES.tillCompactionReduce),
      microbes := jsMax 0 (jsOr sq.soil.microbes 0 - RATES.tillMicrobesReduce) }
    match sq.struct with
    | some st =>
      if st.type = "Trellis" ∨ st.type = "Net" then
        let g1 := clearNeighborConnections x y st.connections g
        fun k =>
          if k = (x, y) then
            some { sq with soil := newSoil.updateDerivedVariables, weeds := 0, struct := none }
          else g1 k
      else
        fun k =>
          if k = (x, y) then some { sq with soil := newSoil.updateDerivedVariables, weeds := 0 }
          else g k
    | none =>
      fun k =>
        if k = (x, y) then some { sq with soil := newSoil.updateDerivedVariables, weeds := 0 }
        else g k

/-- `Square.removeEntity(squareState)` (square.js): remove the plant if
present, otherwise the structure (clearing mirrored connection flags for
Trellis/Net); returns the type of the removed entity. -/
def removeEntity (x y : ℤ) (g : Grid) : Grid × Option String :=
  match g (x, y) with
  | none => (g, none)
  | some sq =>
    match sq.plant with
    | some p =>
      (fun k => if k = (x, y) then some { sq with plant := none } else g k, some p.type)
    | none =>
      match sq.struct with
      | some st =>
        let g1 :=
          if st.type = "Trellis" ∨ st.type = "Net" then
            clearNeighborConnections x y st.connections g
          else g
        (fun k => if k = (x, y) then some { sq with struct := none } else g1 k, some st.type)
      | none => (g, none)

/-- Validity gate of `Square.tryAddingStructure` (square.js):
`SimulationConfig.STRUCTURE_INFO[structureType]` exists. -/
def STRUCTURE_INFO_valid (stype : String) : Bool :=
  stype = "Olla" || stype = "Trellis" || stype = "Net"

/-- The connection-setting loop of `tryAddingStructure`: for each adjacent
same-type neighbor, set the mutual flags by relative position. -/
def connectToNeighbors (x y : ℤ) : List (ℤ × ℤ) → Connections → Grid → Connections × Grid
  | [], conns, g => (conns, g)
  | nk :: rest, conns, g =>
    let nx := nk.1
    let ny := nk.2
    let step : Connections × (Connections → Connections) :=
      if ny < y then ({ conns with top := true }, fun c => { c with bottom := true })
      else if ny > y then ({ conns with bottom := true }, fun c => { c with top := true })
      else (conns, id)
    let step2 : Connections × (Connections → Connections) :=
      if nx < x then ({ step.1 with left := true }, fun c => step.2 { c with right := true })
      else if nx > x then ({ step.1 with right := true }, fun c => step.2 { c with left := true })
      else (step.1, step.2)
    let g1 : Grid := fun k =>
      if k = nk then
        match g k with
        | some nsq =>
          match nsq.struct with
          | some nst => some { nsq with struct := some { nst with connections := step2.2 nst.connections } }
          | none => g k
        | none => none
      else g k
    connectToNeighbors x y rest step2.1 g1

/-- `Square.tryAddingStructure(structureType, squareState)` (square.js):
invalid kinds and occupied cells fail; Trellis/Net placement beside
same-type neighbors uses the `confirm()` answer (here a parameter) to
either connect mutually or place standalone. -/
def tryAddingStructure (structureType : String) (x y : ℤ) (g : Grid) (confirmAnswer : Bool) :
    Grid × Bool :=
  if ¬STRUCTURE_INFO_valid structureType = true then (g, false)
  else
    match g (x, y) with
    | none => (g, false)
    | some sq =>
      if ¬(sq.plant = none ∧ sq.struct = none) then (g, false)
      else
        let newStructure := Structure.new structureType
        if structureType = "Trellis" ∨ structureType = "Net" then
          let neighbors := getNeighbors x y true 1
          let adjacentActiveNeighbors := neighbors.filter fun nk =>
            match g nk with
            | some nsq =>
              match nsq.struct with
              | some nst => nst.type == structureType
              | none => false
            | none => false
          if adjacentActiveNeighbors.length > 0 ∧ confirmAnswer = false then
            (fun k => if k = (x, y) then some { sq with struct := some newStructure } else g k, true)
          else
            if adjacentActiveNeighbors.length > 0 then
              let cg := connectToNeighbors x y adjacentActiveNeighbors newStructure.connections g
              (fun k =>
                if k = (x, y) then
                  some { sq with struct := some { newStructure with connections := cg.1 } }
                else cg.2 k, true)
            else
              (fun k => if k = (x, y) then some { sq with struct := some newStructure } else g k, true)
        else
          (fun k => if k = (x, y) then some { sq with struct := some newStructure } else g k, true)

/-! Weed update (square.js `updateWeeds`), with the random draws passed as
explicit oracle values in [0,1). -/

/-- The wind filter of `Square.updateWeeds` (square.js): restrict the
spread candidates to the downwind half-plane of the current direction
(every neighbor when there is no wind). -/
def downwindFilter (windDirection : String) (x y : ℤ) (neighbors : List (ℤ × ℤ)) :
    List (ℤ × ℤ) :=
  if windDirection = "N" then neighbors.filter fun nk => nk.2 > y
  else if windDirection = "E" then neighbors.filter fun nk => nk.1 < x
  else if windDirection = "S" then neighbors.filter fun nk => nk.2 < y
  else if windDirection = "W" then neighbors.filter fun nk => nk.1 > x
  else neighbors

/-- `Square.updateWeeds(squareState, globalState)` (square.js): growth,
nutrient sap, and level-4 downwind spread.  `r1` is the growth roll, `r2`
the spread roll, and `r3` the neighbor-choice roll. -/
def updateWeeds (x y : ℤ) (g : Grid) (windDirection : String) (r1 r2 r3 : ℚ) : Grid :=
  match g (x, y) with
  | none => g
  | some sq =>
    let currentWeeds := sq.weeds
    let weeds1 := if 0 < currentWeeds ∧ currentWeeds < 4 ∧ r1 < RATES.weedGrowthChance then
        currentWeeds + 1
      else currentWeeds
    let nutrientSap := RATES.weedNutrientSapRate * (currentWeeds : ℚ)
    let soil1 :=
      if currentWeeds > 0 then
        { sq.soil with bioavailableNutrition := jsMax 0 (jsOr sq.soil.bioavailableNutrition 0 - nutrientSap) }
      else sq.soil
    let selfUpdated : Option Square := some { sq with weeds := weeds1, soil := soil1 }
    let noSpread : Grid := fun k => if k = (x, y) then selfUpdated else g k
    if currentWeeds = 4 ∧ r2 < RATES.weedSpreadChance then
      let downwindNeighbors := downwindFilter windDirection x y (getNeighbors x y true 1)
      if downwindNeighbors.length > 0 then
        match downwindNeighbors.get? (⌊r3 * (downwindNeighbors.length : ℚ)⌋).toNat with
        | some targetNeighborKey =>
          match g targetNeighborKey with
          | some neighborSquare =>
            if neighborSquare.weeds = 0 ∧ neighborSquare.plant = none ∧
                neighborSquare.struct = none then
              fun k =>
                if k = targetNeighborKey then some { neighborSquare with weeds := 1 }
                else if k = (x, y) then selfUpdated
                else g k
            else noSpread
          | none => noSpread
        | none => noSpread
      else noSpread
    else noSpread

/-! Pest update (square.js `updatePests`), with the random draws passed as
explicit oracle values. -/

/-- Global simulation variables read by `updatePests`. -/
structure GlobalState where
  currentHumidity : ℚ
  beneficialAttractionLevel : ℚ
deriving DecidableEq

/-- The random draws `updatePests` consumes in one call. -/
structure PestOracle where
  spawnNemRoll : ℚ
  spawnAphidRoll : ℚ
  levelUpRoll : ℚ
  ladybeetleRoll : ℚ
  nematodeDefenseRoll : ℚ
deriving DecidableEq

/-- The spawning section of `Square.updatePests` (square.js), entered when
the cell is pest-free: aphid chance needs a plant host and doubles in
wet/humid conditions; nematode chance is gated on wet duration and low
microbes and suppressed by a Marigold on or next to the cell. -/
def pestsSpawn (sq : Square) (x y : ℤ) (g : Grid) (glob : GlobalState) (o : PestOracle) : Square :=
  let hasPlant := sq.plant ≠ none
  let spawnChanceAphids0 : ℚ :=
    if hasPlant then
      if jsOr sq.soil.moisture 0 > THRESHOLDS.pestSpawnMoisture ∨
          glob.currentHumidity > THRESHOLDS.pestSpawnHumidity then
        RATES.pestSpawnBaseChance * 2
      else RATES.pestSpawnBaseChance
    else 0
  let isMarigoldNear := (getNeighbors x y true 1).any fun nk =>
    match g nk with
    | some nsq => nsq.plant.map Plant.type == some "Marigold"
    | none => false
  let nematodeSuppressionFactor : ℚ :=
    if sq.plant.map Plant.type = some "Marigold" ∨ isMarigoldNear = true then 0.1 else 1
  let nematodeConditionsMet :=
    sq.soil.wetDuration ≥ THRESHOLDS.nematodeWetDuration ∧
    jsOr sq.soil.microbes 0 < THRESHOLDS.highMicrobesForNematodeDefense
  let spawnChanceNematodes : ℚ :=
    if nematodeConditionsMet then RATES.pestSpawnBaseChance * 3 * nematodeSuppressionFactor
    else 0
  let spawnChanceAphids :=
    if nematodeConditionsMet ∧ hasPlant then spawnChanceAphids0 * 0.3 else spawnChanceAphids0
  if o.spawnNemRoll < spawnChanceNematodes then
    { sq with pests := { type := some "Nematodes", level := 1 } }
  else if o.spawnAphidRoll < spawnChanceAphids then
    { sq with pests := { type := some "Aphids", level := 1 } }
  else sq

/-- The level-up section of `Square.updatePests` (square.js), entered when
pests are present: fixed chance to gain a level up to 4, reduced for
Aphids under a Net. -/
def pestsLevelUp (sq : Square) (o : PestOracle) : Square :=
  let levelUpChance :=
    if sq.pests.type = some "Aphids" ∧ sq.struct.map Structure.type = some "Net" then
      RATES.pestLevelUpChance * 0.3
    else RATES.pestLevelUpChance
  if sq.pests.level < 4 ∧ o.levelUpRoll < levelUpChance then
    { sq with pests := { sq.pests with level := sq.pests.level + 1 } }
  else sq

/-- The removal/control section of `Square.updatePests` (square.js):
ladybeetle removal of Aphids, microbe defense against Nematodes, and the
final clearing of pests whose host plant is gone. -/
def pestsRemoval (sq1 : Square) (glob : GlobalState) (o : PestOracle) : Square :=
  let sqA :=
    if sq1.pests.type = some "Aphids" ∧
        glob.beneficialAttractionLevel ≥ THRESHOLDS.beneficialAttractionThreshold then
      let removalChance :=
        clamp (glob.beneficialAttractionLevel / 10) 0 1 * RATES.ladybeetleAphidRemovalChanceFactor
      if o.ladybeetleRoll < removalChance then
        let newLevel := sq1.pests.level - 1
        if newLevel = 0 then { sq1 with pests := { type := none, level := 0 } }
        else { sq1 with pests := { sq1.pests with level := newLevel } }
      else sq1
    else sq1
  let sqB :=
    if sqA.pests.type = some "Nematodes" ∧
        jsOr sqA.soil.microbes 0 > THRESHOLDS.highMicrobesForNematodeDefense then
      if o.nematodeDefenseRoll < 0.2 then { sqA with pests := { type := none, level := 0 } }
      else sqA
    else sqA
  if sqB.plant = none then { sqB with pests := { type := none, level := 0 } } else sqB

/-- `Square.updatePests(squareState, globalState)` (square.js): spawning on
pest-free cells or level-up on infested ones, then the removal section,
which the source guards with the `pests` snapshot taken at entry. -/
def updatePests (sq : Square) (x y : ℤ) (g : Grid) (glob : GlobalState) (o : PestOracle) : Square :=
  let pests := sq.pests
  let sq1 := if pests.type = none then pestsSpawn sq x y g glob o else pestsLevelUp sq o
  if pests.type ≠ none then pestsRemoval sq1 glob o else sq1

/-- Connectivity symmetry (spec section 3): a connection flag set on one
side is mirrored on the neighbor it points to. -/
def ConnSymmetric (g : Grid) : Prop :=
  ∀ (k : ℤ × ℤ) (d : Dir), flagAt g k d = true → flagAt g (adj k d) d.opp = true

/-! Concrete instances used by witnesses and counterexamples.  `soilProbe`
spells out the state a fresh default soil reaches after the constructor's
derived-variable pass, as a literal record. -/

/-- Default soil as an explicit literal (moisture 50, compaction 50,
microbes 50, organic matter 10, bioavailable nutrition 10, pH 7, with the
derived nutrition 25, soil condition 43.75, oxygen 100). -/
def soilProbe : Soil := {
  moisture := 50, nutrition := 25, compaction := 50, microbes := 50, oxygen := 100,
  organicMatter := 10, bioavailableNutrition := 10, pH := 7, soilCondition := 43.75,
  evaporationRate := 0.1, wetDuration := 0, oxygenBasePotential := 100 }

/-- An empty cell over probe soil. -/
def sqEmpty : Square := {
  soil := soilProbe, temperature := 20, weeds := 0,
  pests := { type := none, level := 0 }, plant := none, struct := none }

/-- A stage-3 (Fruiting) Corn plant at maturity progress 0.9. -/
def plantFruitingCorn : Plant := { Plant.new "Corn" with growthStage := 3, maturityProgress := 0.9 }

/-- Soil whose bioavailable nutrition (5) is below the flowering gate (10). -/
def soilLowBN : Soil := { soilProbe with bioavailableNutrition := 5 }

/-- A harvest-ready (stage-3, pollinated) Corn plant. -/
def plantReadyCorn : Plant := { Plant.new "Corn" with growthStage := 3, wasPollinated := true }

/-- A cell with a harvest-ready Corn plant and level-2 Aphids. -/
def sqCornReady : Square := {
  soil := soilProbe, temperature := 20, weeds := 0,
  pests := { type := some "Aphids", level := 2 },
  plant := some plantReadyCorn, struct := none }

/-- A stage-1 (Vegetative) Corn plant, not pollinated. -/
def plantImmatureCorn : Plant := { Plant.new "Corn" with growthStage := 1 }

/-- A cell with an immature, unpollinated Corn plant. -/
def sqCornImmature : Square := { sqEmpty with plant := some plantImmatureCorn }

/-- A stage-1 Flower plant (species that never requires pollination). -/
def plantImmatureFlower : Plant := { Plant.new "Flower" with growthStage := 1 }

/-- A cell with an immature Flower plant. -/
def sqFlowerImmature : Square := { sqEmpty with plant := some plantImmatureFlower }

/-- An Olla holding 10 units of water. -/
def stOlla10 : Structure := { type := "Olla", connections := Connections.none, waterLevel := 10 }

/-- A cell carrying a level-4 weed patch. -/
def sqWeed4 : Square := { sqEmpty with weeds := 4 }

/-- A two-cell grid: a level-4 weed at (5,5) with an empty cell at (4,5). -/
def gridWeed : Grid := fun k =>
  if k = ((5 : ℤ), (5 : ℤ)) then some sqWeed4
  else if k = ((4 : ℤ), (5 : ℤ)) then some sqEmpty
  else none

/-- The empty grid. -/
def gridEmpty : Grid := fun _ => none

/-- A trellis connected to the right. -/
def stTrellisRight : Structure := {
  type := "Trellis", connections := { top := false, right := true, bottom := false, left := false },
  waterLevel := 0 }

/-- A trellis connected to the left. -/
def stTrellisLeft : Structure := {
  type := "Trellis", connections := { top := false, right := false, bottom := false, left := true },
  waterLevel := 0 }

/-- A two-cell grid of mutually connected trellises at (0,0) and (1,0). -/
def gridTrellis : Grid := fun k =>
  if k = ((0 : ℤ), (0 : ℤ)) then some { sqEmpty with struct := some stTrellisRight }
  else if k = ((1 : ℤ), (0 : ℤ)) then some { sqEmpty with struct := some stTrellisLeft }
  else none

/-- A constant pest-update oracle. -/
def pestOracleHalf : PestOracle := {
  spawnNemRoll := 0.5, spawnAphidRoll := 0.5, levelUpRoll := 0.5,
  ladybeetleRoll := 0.5, nematodeDefenseRoll := 0.5 }

/-- Global weather values for witnesses. -/
def globalDefault : GlobalState := { currentHumidity := 60, beneficialAttractionLevel := 0 }

/-! # Theorems

Helper lemmas, then one theorem per claim (with its witness or
counterexample where required). -/

theorem le_clamp (v lo hi : ℚ) : lo ≤ clamp v lo hi := by
  unfold clamp jsMax jsMin; split_ifs <;> linarith

theorem clamp_le {lo hi : ℚ} (v : ℚ) (h : lo ≤ hi) : clamp v lo hi ≤ hi := by
  unfold clamp jsMax jsMin; split_ifs <;> linarith

theorem jsOr_zero (x : ℚ) : jsOr x 0 = x := by
  unfold jsOr; split <;> simp_all

/-! ## C4 — idempotence of the soil operations -/

/-- C4 counterexample: `addMoisture` applied twice with the same argument is
not the same as applying it once — on the default soil, moisture goes to 57
after one application and 64 after two — so not every soil operation is
idempotent. -/
theorem addMoisture_not_idempotent :
    ¬ (soilProbe.addMoisture 7).addMoisture 7 = soilProbe.addMoisture 7 := by
  intro h
  have h2 := congrArg Soil.moisture h
  have e1 : (soilProbe.addMoisture 7).moisture = 57 := by
    show clamp (soilProbe.moisture + 7) 0 100 = 57
    norm_num [clamp, jsMax, jsMin, soilProbe]
  have e2 : ((soilProbe.addMoisture 7).addMoisture 7).moisture = 64 := by
    show clamp ((soilProbe.addMoisture 7).moisture + 7) 0 100 = 64
    rw [e1]; norm_num [clamp, jsMax, jsMin]
  rw [e1, e2] at h2
  norm_num at h2

/-- C4 (amended): of the soil operations, `recomputeDerived`
(`updateDerivedVariables`) and `updateOxygen` (given the same consumption)
are idempotent: running either twice yields the same soil state as running
it once.  The state-advancing operations (`addMoisture`, `updateMicrobes`,
`applyEvaporation`, `updateDegradation`, `updatePH`, `updateWetDuration`)
are deterministic per-tick increments but not idempotent. -/
theorem recomputeDerived_updateOxygen_idempotent (s : Soil) (c : ℚ) :
    s.updateDerivedVariables.updateDerivedVariables = s.updateDerivedVariables ∧
    (s.updateOxygen c).updateOxygen c = s.updateOxygen c := ⟨rfl, rfl⟩

/-! ## C5 — soil bounds are preserved by every tick operation -/

theorem inBounds_updateDerivedVariables {s : Soil} (h : s.inBounds) :
    s.updateDerivedVariables.inBounds := by
  obtain ⟨h1, h2, h3, h4, h5, h6, h7, h8, h9, h10, h11, h12, h13, h14⟩ := h
  exact ⟨h1, h2, h3, h4, h5, h6, le_clamp _ _ _, clamp_le _ (by norm_num),
    le_clamp _ _ _, clamp_le _ (by norm_num), h11, h12, h13, h14⟩

theorem inBounds_addMoisture {s : Soil} (h : s.inBounds) (a : ℚ) :
    (s.addMoisture a).inBounds := by
  obtain ⟨h1, h2, h3, h4, h5, h6, h7, h8, h9, h10, h11, h12, h13, h14⟩ := h
  exact inBounds_updateDerivedVariables
    ⟨le_clamp _ _ _, clamp_le _ (by norm_num), h3, h4, h5, h6, h7, h8, h9, h10, h11, h12, h13, h14⟩

theorem inBounds_updateMicrobes {s : Soil} (h : s.inBounds) (t : ℚ) :
    (s.updateMicrobes t).inBounds := by
  obtain ⟨h1, h2, h3, h4, h5, h6, h7, h8, h9, h10, h11, h12, h13, h14⟩ := h
  exact ⟨h1, h2, h3, h4, h5, h6, h7, h8, h9, h10, le_clamp _ _ _, clamp_le _ (by norm_num), h13, h14⟩

theorem inBounds_evapRate {s : Soil} (h : s.inBounds) (r : ℚ) :
    ({ s with evaporationRate := r } : Soil).inBounds := h

theorem inBounds_microbesClamp {s : Soil} (h : s.inBounds) (v : ℚ) :
    ({ s with microbes := clamp v 0 1000 } : Soil).inBounds := by
  obtain ⟨h1, h2, h3, h4, h5, h6, h7, h8, h9, h10, h11, h12, h13, h14⟩ := h
  exact ⟨h1, h2, h3, h4, h5, h6, h7, h8, h9, h10, le_clamp _ _ _, clamp_le _ (by norm_num), h13, h14⟩

theorem inBounds_applyEvaporation {s : Soil} (h : s.inBounds) (t hu w m : ℚ) :
    (s.applyEvaporation t hu w m).1.inBounds := by
  show (Soil.addMoisture _ _).inBounds
  exact inBounds_addMoisture (inBounds_evapRate h _) _

set_option maxHeartbeats 1000000 in
theorem inBounds_updateDegradation {s : Soil} (h : s.inBounds) :
    s.updateDegradation.inBounds := by
  simp only [Soil.updateDegradation]
  split_ifs <;>
    first
      | exact h
      | exact inBounds_microbesClamp (inBounds_addMoisture h _) _

theorem inBounds_updateOxygen {s : Soil} (h : s.inBounds) (c : ℚ) :
    (s.updateOxygen c).inBounds := by
  obtain ⟨g1, g2, g3, g4, g5, g6, g7, g8, g9, g10, g11, g12, g13, g14⟩ :=
    inBounds_updateDerivedVariables h
  exact ⟨g1, g2, g3, g4, le_clamp _ _ _, clamp_le _ (by norm_num), g7, g8, g9, g10, g11, g12, g13, g14⟩

theorem inBounds_updatePH {s : Soil} (h : s.inBounds) : s.updatePH.inBounds := by
  unfold Soil.updatePH
  split
  · obtain ⟨g1, g2, g3, g4, g5, g6, g7, g8, g9, g10, g11, g12, g13, g14⟩ := h
    exact ⟨g1, g2, g3, g4, g5, g6, g7, g8, g9, g10, g11, g12, le_clamp _ _ _,
      clamp_le _ (by norm_num [THRESHOLDS.phMin, THRESHOLDS.phMax])⟩
  · exact h

theorem inBounds_updateWetDuration {s : Soil} (h : s.inBounds) :
    s.updateWetDuration.inBounds := by
  unfold Soil.updateWetDuration
  split
  · exact h
  · exact h

/-- C5: for every soil state within bounds and every sequence of tick soil
operations (recomputeDerived, addMoisture, updateMicrobes, applyEvaporation,
updateDegradation, updateOxygen, updatePH, updateWetDuration, with arbitrary
arguments), the resulting state stays within bounds: moisture, compaction,
oxygen, soil condition and nutrition in [0,100], microbes in [0,1000] and
pH in [4,9]. -/
theorem soil_tick_ops_stay_in_bounds (ops : List SoilOp) (s : Soil) (h : s.inBounds) :
    (ops.foldl (fun t op => op.apply t) s).inBounds := by
  induction ops generalizing s with
  | nil => exact h
  | cons op rest ih =>
    refine ih _ ?_
    cases op with
    | recomputeDerived => exact inBounds_updateDerivedVariables h
    | addMoisture d => exact inBounds_addMoisture h d
    | updateMicrobes t => exact inBounds_updateMicrobes h t
    | applyEvaporation t hu w m => exact inBounds_applyEvaporation h t hu w m
    | updateDegradation => exact inBounds_updateDegradation h
    | updateOxygen c => exact inBounds_updateOxygen h c
    | updatePH => exact inBounds_updatePH h
    | updateWetDuration => exact inBounds_updateWetDuration h

/-- C5 witness: a full tick's worth of soil operations applied to the
default soil keeps it within bounds. -/
theorem soil_tick_ops_stay_in_bounds_witness :
    ([SoilOp.addMoisture 7, SoilOp.updateMicrobes 25, SoilOp.applyEvaporation 30 60 5 1,
      SoilOp.updateDegradation, SoilOp.updateOxygen 2, SoilOp.updatePH, SoilOp.updateWetDuration,
      SoilOp.recomputeDerived].foldl (fun t op => op.apply t) soilProbe).inBounds :=
  soil_tick_ops_stay_in_bounds _ soilProbe (by unfold Soil.inBounds soilProbe; norm_num)

/-! ## C10 — maturity progress is monotone and stays in [0,1] -/

theorem updateMaturityAndStage_maturity (p : Plant) (s : Soil) (e : ℚ) :
    (p.updateMaturityAndStage s e).maturityProgress =
      clamp (jsOr p.maturityProgress 0 + p.progressThisTick s e) 0 1 := by
  simp only [Plant.updateMaturityAndStage]
  split_ifs <;> rfl

theorem progressThisTick_nonneg (p : Plant) (s : Soil) {e : ℚ} (he : 0 ≤ e) :
    0 ≤ p.progressThisTick s e := by
  simp only [Plant.progressThisTick]
  have hd : (0 : ℚ) ≤ (if jsOr p.props.daysToHarvestableStage 60 > 0
      then THRESHOLDS.plantTier3Maturity / jsOr p.props.daysToHarvestableStage 60 else 0) := by
    split
    · exact div_nonneg (by norm_num [THRESHOLDS.plantTier3Maturity]) (le_of_lt (by assumption))
    · exact le_refl 0
  have hc : (0 : ℚ) ≤ clamp (jsOr s.soilCondition 0 / THRESHOLDS.soilConditionGrow) 0.1 1.2 :=
    le_trans (by norm_num) (le_clamp _ _ _)
  have hh : (0 : ℚ) ≤
      clamp ((jsOr p.stemHealth 100 + jsOr p.rootHealth 0 + jsOr p.leafDensity 0 * 100) / 300) 0.1 1 :=
    le_trans (by norm_num) (le_clamp _ _ _)
  exact mul_nonneg (mul_nonneg (mul_nonneg hd (by positivity)) hc) hh

/-- C10: for every living plant and non-negative elapsed time, one
maturity-and-stage update never decreases `maturityProgress`, and the
result stays in [0,1]: the per-tick increment is a product of non-negative
factors and the sum is clamped to [0,1]. -/
theorem maturityProgress_monotone_bounded (p : Plant) (s : Soil) (e : ℚ)
    (he : 0 ≤ e) (h0 : 0 ≤ p.maturityProgress) (h1 : p.maturityProgress ≤ 1) :
    p.maturityProgress ≤ (p.updateMaturityAndStage s e).maturityProgress ∧
    0 ≤ (p.updateMaturityAndStage s e).maturityProgress ∧
    (p.updateMaturityAndStage s e).maturityProgress ≤ 1 := by
  rw [updateMaturityAndStage_maturity, jsOr_zero]
  have ht := progressThisTick_nonneg p s he
  refine ⟨?_, le_clamp _ _ _, clamp_le _ (by norm_num)⟩
  unfold clamp jsMax jsMin
  split_ifs <;> linarith

/-- C10 witness: one update of a fresh Corn plant on default soil. -/
theorem maturityProgress_monotone_bounded_witness :
    plantReadyCorn.maturityProgress ≤
      (plantReadyCorn.updateMaturityAndStage soilProbe 1).maturityProgress ∧
    0 ≤ (plantReadyCorn.updateMaturityAndStage soilProbe 1).maturityProgress ∧
    (plantReadyCorn.updateMaturityAndStage soilProbe 1).maturityProgress ≤ 1 :=
  maturityProgress_monotone_bounded plantReadyCorn soilProbe 1 (by norm_num)
    (le_refl 0) (by show (0 : ℚ) ≤ 1; norm_num)

/-! ## C1 — the growth stage can move backward when the nutrient gate fails -/

/-- C1: a stage-3 (Fruiting) Corn plant at maturity progress 0.9 that is not
senescent is demoted to stage 2 by `_updateMaturityAndStage` when the
soil's bioavailable nutrition (5) is below the flowering gate (10): the
`Math.min(growthStage, 2)` cap lowers the stage instead of stalling it, so
the growth stage does decrease without death or removal. -/
theorem growthStage_regresses_when_nutrient_gate_fails :
    plantFruitingCorn.growthStage = 3 ∧
    (Plant.handleSenescence plantFruitingCorn).2 = false ∧
    (plantFruitingCorn.updateMaturityAndStage soilLowBN 0).growthStage = 2 := by
  refine ⟨rfl, ?_, ?_⟩
  · simp only [Plant.handleSenescence, plantFruitingCorn, Plant.new, PLANT_PROPERTIES,
      testPlantProps, jsOr, decide_eq_false_iff_not]
    norm_num
  · simp only [Plant.updateMaturityAndStage, Plant.progressThisTick, plantFruitingCorn,
      soilLowBN, soilProbe, Plant.new, PLANT_PROPERTIES, testPlantProps, jsOr, clamp, jsMax,
      jsMin, jsMinN, THRESHOLDS.plantTier3Maturity, THRESHOLDS.plantTier2Maturity,
      THRESHOLDS.plantTier1Maturity, THRESHOLDS.minNutrientsForFlowering,
      THRESHOLDS.soilConditionGrow]
    norm_num

/-! ## C2 — harvest removes the plant; pests are cleared at the next pest
update, not by the harvest command -/

theorem pestsLevelUp_plant (sq : Square) (o : PestOracle) :
    (pestsLevelUp sq o).plant = sq.plant := by
  simp only [pestsLevelUp]; split_ifs <;> rfl

theorem pestsRemoval_pests_of_no_plant (sq1 : Square) (glob : GlobalState) (o : PestOracle)
    (h : sq1.plant = none) :
    (pestsRemoval sq1 glob o).pests = { type := none, level := 0 } := by
  simp only [pestsRemoval]
  split_ifs <;> first | rfl | exact absurd h (by assumption)

theorem updatePests_clears_when_no_plant (sq : Square) (x y : ℤ) (g : Grid)
    (glob : GlobalState) (o : PestOracle)
    (hpl : sq.plant = none) (hty : sq.pests.type ≠ none) :
    (updatePests sq x y g glob o).pests = { type := none, level := 0 } := by
  simp only [updatePests]
  rw [if_neg hty, if_pos hty]
  exact pestsRemoval_pests_of_no_plant _ glob o (by rw [pestsLevelUp_plant]; exact hpl)

theorem harvestPlant_success (sq : Square) (p : Plant) (hp : sq.plant = some p)
    (h4 : ¬p.growthStage = 4)
    (hge : p.growthStage ≥ (if p.type = "Flower" ∨ p.type = "Marigold" ∨ p.type = "Basil" then 2 else 3))
    (hpoll : ¬(jsOr p.props.maxYield 0 > 0 ∨ p.type = "Beans" ∨ p.type = "Squash" ∨
      p.type = "Tomato") ∨ p.wasPollinated = true) :
    (sq.harvestPlant).1 = { sq with plant := none } ∧ (sq.harvestPlant).2.harvested = true := by
  unfold Square.harvestPlant
  simp only [hp]
  rw [if_neg h4, if_pos ⟨hge, hpoll⟩]
  exact ⟨rfl, rfl⟩

/-- C2 (amended): a successful harvest removes the plant from the cell but
does not touch the cell's pest state within the command; because the host
plant is gone, the pest state is reset to none (type null, level 0) by the
next `updatePests` step, whatever the random draws and global state. -/
theorem harvest_keeps_pests_until_next_pest_update (sq : Square)
    (hs : (sq.harvestPlant).2.harvested = true) (hp : sq.pests.type ≠ none) :
    (sq.harvestPlant).1.plant = none ∧
    (sq.harvestPlant).1.pests = sq.pests ∧
    ∀ (x y : ℤ) (g : Grid) (glob : GlobalState) (o : PestOracle),
      (updatePests (sq.harvestPlant).1 x y g glob o).pests = { type := none, level := 0 } := by
  have key : (sq.harvestPlant).1.plant = none ∧ (sq.harvestPlant).1.pests = sq.pests := by
    unfold Square.harvestPlant at hs ⊢
    match hx : sq.plant with
    | none => simp only [hx] at hs; exact absurd hs (by decide)
    | some p =>
      simp only [hx] at hs ⊢
      split_ifs at hs ⊢ <;> simp_all
  refine ⟨key.1, key.2, fun x y g glob o => ?_⟩
  exact updatePests_clears_when_no_plant _ x y g glob o key.1 (key.2 ▸ hp)

/-- C2 counterexample: harvesting a ready Corn plant on a cell with level-2
Aphids succeeds, yet the returned cell still carries the Aphids — the pest
state is not reset to none before the command returns. -/
theorem harvest_does_not_reset_pests :
    (sqCornReady.harvestPlant).2.harvested = true ∧
    (sqCornReady.harvestPlant).1.pests.type = some "Aphids" := by
  have h := harvestPlant_success sqCornReady plantReadyCorn rfl (by decide)
    (by decide) (Or.inr rfl)
  refine ⟨h.2, ?_⟩
  rw [h.1]
  rfl

/-- C2 witness: the amended statement at the ready-Corn cell with Aphids. -/
theorem harvest_keeps_pests_until_next_pest_update_witness :
    (sqCornReady.harvestPlant).1.plant = none ∧
    (sqCornReady.harvestPlant).1.pests = sqCornReady.pests ∧
    ∀ (x y : ℤ) (g : Grid) (glob : GlobalState) (o : PestOracle),
      (updatePests (sqCornReady.harvestPlant).1 x y g glob o).pests =
        { type := none, level := 0 } :=
  harvest_keeps_pests_until_next_pest_update sqCornReady
    (harvestPlant_success sqCornReady plantReadyCorn rfl (by decide) (by decide) (Or.inr rfl)).2
    (by decide)

/-! ## C7 — harvest below the harvestable stage -/

theorem harvestPlant_immature_reason (sq : Square) (p : Plant) (hp : sq.plant = some p)
    (h4 : ¬p.growthStage = 4)
    (him : p.growthStage < (if p.type = "Flower" ∨ p.type = "Marigold" ∨ p.type = "Basil" then 2 else 3)) :
    (sq.harvestPlant).2.harvested = false ∧
    (sq.harvestPlant).2.reason = some (if (jsOr p.props.maxYield 0 > 0 ∨ p.type = "Beans" ∨
      p.type = "Squash" ∨ p.type = "Tomato") ∧ ¬p.wasPollinated = true then "unpollinated"
      else "immature") := by
  unfold Square.harvestPlant
  simp only [hp]
  rw [if_neg h4, if_neg (fun hc => absurd hc.1 (not_le_of_lt him))]
  refine ⟨rfl, ?_⟩
  rw [if_pos him]

/-- C7 (amended): harvesting a non-senescent plant whose growth stage is
strictly below its species' harvestable stage fails, with reason
"immature" — unless the species requires pollination (positive max yield,
or Beans/Squash/Tomato) and the plant is unpollinated, in which case the
"unpollinated" reason overrides "immature". -/
theorem harvest_below_harvestable_stage (sq : Square) (p : Plant) (hp : sq.plant = some p)
    (h4 : ¬p.growthStage = 4)
    (him : p.growthStage < (if p.type = "Flower" ∨ p.type = "Marigold" ∨ p.type = "Basil" then 2 else 3)) :
    (sq.harvestPlant).2.harvested = false ∧
    (sq.harvestPlant).2.reason = some (if (jsOr p.props.maxYield 0 > 0 ∨ p.type = "Beans" ∨
      p.type = "Squash" ∨ p.type = "Tomato") ∧ ¬p.wasPollinated = true then "unpollinated"
      else "immature") :=
  harvestPlant_immature_reason sq p hp h4 him

/-- C7 counterexample: an immature (stage-1), unpollinated Corn plant fails
to harvest with reason "unpollinated", not "immature". -/
theorem harvest_immature_unpollinated_overrides :
    sqCornImmature.plant.map Plant.growthStage = some 1 ∧
    (sqCornImmature.harvestPlant).2.harvested = false ∧
    (sqCornImmature.harvestPlant).2.reason = some "unpollinated" := by
  have h := harvestPlant_immature_reason sqCornImmature plantImmatureCorn rfl (by decide) (by decide)
  refine ⟨rfl, h.1, ?_⟩
  rw [h.2, if_pos]
  refine ⟨Or.inl ?_, ?_⟩
  · show jsOr (2 : ℚ) 0 > 0
    norm_num [jsOr]
  · show ¬false = true
    decide

/-- C7 witness: an immature Flower plant (no pollination requirement) gets
reason "immature". -/
theorem harvest_below_harvestable_stage_witness :
    (sqFlowerImmature.harvestPlant).2.harvested = false ∧
    (sqFlowerImmature.harvestPlant).2.reason = some "immature" := by
  have h := harvest_below_harvestable_stage sqFlowerImmature plantImmatureFlower rfl
    (by decide) (by decide)
  refine ⟨h.1, ?_⟩
  rw [h.2, if_neg]
  rintro ⟨hor, -⟩
  rcases hor with h' | h' | h' | h'
  · revert h'
    show ¬jsOr (0 : ℚ) 0 > 0
    norm_num [jsOr]
  · exact absurd h' (by decide)
  · exact absurd h' (by decide)
  · exact absurd h' (by decide)

/-! ## C3 — unknown identifiers -/

/-- C3 counterexample: planting the unknown species "Zucchini" on an empty
cell does not fail — the Plant constructor falls back to the Test species,
a plant is created in the cell, and the command reports success. -/
theorem planting_unknown_species_creates_plant :
    (sqEmpty.tryPlanting "Zucchini").2 = true ∧
    (sqEmpty.tryPlanting "Zucchini").1.plant ≠ none ∧
    ((sqEmpty.tryPlanting "Zucchini").1.plant.map Plant.type) = some "Test" := by
  unfold Square.tryPlanting
  rw [if_pos ⟨rfl, rfl⟩]
  exact ⟨rfl, by decide, rfl⟩

/-- C3 (amended): an unknown structure kind makes PlaceStructure fail with
no grid mutation, and an unknown amendment kind makes AddAmendment fail
with no cell mutation; but an unknown species passed to PlantSeed does not
fail: on an empty cell the constructor falls back to the Test species and a
Test plant is created, the command reporting success. -/
theorem unknown_kind_commands (t : String) (x y : ℤ) (g : Grid) (sq : Square) (c : Bool)
    (hs : STRUCTURE_INFO_valid t = false)
    (ha : ¬t = "compost" ∧ ¬t = "crh" ∧ ¬t = "sand")
    (hp : PLANT_PROPERTIES t = none) :
    tryAddingStructure t x y g c = (g, false) ∧
    sq.addAmendment t = (sq, false) ∧
    (sq.plant = none ∧ sq.struct = none →
      (sq.tryPlanting t).2 = true ∧
      (sq.tryPlanting t).1.plant = some (Plant.new t) ∧
      (Plant.new t).type = "Test") := by
  refine ⟨?_, ?_, ?_⟩
  · unfold tryAddingStructure
    rw [if_pos]
    simp [hs]
  · unfold Square.addAmendment
    rw [if_neg ha.1, if_neg ha.2.1, if_neg ha.2.2]
  · intro h
    unfold Square.tryPlanting
    rw [if_pos h]
    refine ⟨rfl, rfl, ?_⟩
    unfold Plant.new
    rw [hp]

/-- C3 witness: the amended statement at the identifier "Zucchini". -/
theorem unknown_kind_commands_witness :
    tryAddingStructure "Zucchini" 0 0 gridEmpty false = (gridEmpty, false) ∧
    sqCornReady.addAmendment "Zucchini" = (sqCornReady, false) ∧
    (sqCornReady.plant = none ∧ sqCornReady.struct = none →
      (sqCornReady.tryPlanting "Zucchini").2 = true ∧
      (sqCornReady.tryPlanting "Zucchini").1.plant = some (Plant.new "Zucchini") ∧
      (Plant.new "Zucchini").type = "Test") :=
  unknown_kind_commands "Zucchini" 0 0 gridEmpty sqCornReady false (by decide)
    (by refine ⟨?_, ?_, ?_⟩ <;> decide) rfl

/-! ## C6 — Olla release and water distribution -/

theorem olla_rings_nonempty (x y : ℤ) (hx0 : 0 ≤ x) (hx : x < 15) (hy0 : 0 ≤ y) (hy : y < 15) :
    (ollaNeighbors1 x y).length ≠ 0 ∧ (ollaNeighbors2 x y).length ≠ 0 := by
  interval_cases x <;> interval_cases y <;> exact ⟨by decide, by decide⟩

theorem sum_map_const {α : Type} (l : List α) (c : ℚ) :
    (l.map fun _ => c).sum = (l.length : ℚ) * c := by
  induction l with
  | nil => simp
  | cons a t ih => simp [ih]; ring

/-- C6: an Olla with positive stored water releases exactly
min(3.5, stored) in one structure update, its stored water drops by that
amount, and for any grid cell the per-neighbor moisture amounts handed to
the radius-1 and radius-2 rings sum exactly to the released amount. -/
theorem olla_release_and_distribution (st : Structure) (x y : ℤ)
    (hty : st.type = "Olla") (hw : st.waterLevel > 0)
    (hx0 : 0 ≤ x) (hx : x < 15) (hy0 : 0 ≤ y) (hy : y < 15) :
    (st.update).2 = jsMin st.waterLevel RATES.ollaWaterRelease ∧
    (st.update).1.waterLevel = st.waterLevel - jsMin st.waterLevel RATES.ollaWaterRelease ∧
    ((ollaNeighbors1 x y).map fun _ => ollaReleasePerNeighbor1 x y (st.update).2).sum +
      ((ollaNeighbors2 x y).map fun _ => ollaReleasePerNeighbor2 x y (st.update).2).sum =
      (st.update).2 := by
  have hup : st.update =
      ({ st with waterLevel := st.waterLevel - jsMin st.waterLevel RATES.ollaWaterRelease },
        jsMin st.waterLevel RATES.ollaWaterRelease) := by
    unfold Structure.update
    rw [if_pos ⟨hty, hw⟩]
  obtain ⟨hn1, hn2⟩ := olla_rings_nonempty x y hx0 hx hy0 hy
  refine ⟨by rw [hup], by rw [hup], ?_⟩
  rw [sum_map_const, sum_map_const]
  simp only [ollaReleasePerNeighbor1, ollaReleasePerNeighbor2]
  rw [if_pos (show RATES.ollaDistributionRadius1Ratio + RATES.ollaDistributionRadius2Ratio > 0 by
        norm_num [RATES.ollaDistributionRadius1Ratio, RATES.ollaDistributionRadius2Ratio]),
      if_pos (show RATES.ollaDistributionRadius1Ratio + RATES.ollaDistributionRadius2Ratio > 0 by
        norm_num [RATES.ollaDistributionRadius1Ratio, RATES.ollaDistributionRadius2Ratio]),
      if_pos (Nat.pos_of_ne_zero hn1), if_pos (Nat.pos_of_ne_zero hn2)]
  have c1 : ((ollaNeighbors1 x y).length : ℚ) ≠ 0 := Nat.cast_ne_zero.mpr hn1
  have c2 : ((ollaNeighbors2 x y).length : ℚ) ≠ 0 := Nat.cast_ne_zero.mpr hn2
  have key : ∀ (n a : ℚ), n ≠ 0 → n * (a / n) = a := fun n a h => by field_simp
  rw [key _ _ c1, key _ _ c2]
  have hr : RATES.ollaDistributionRadius1Ratio / (RATES.ollaDistributionRadius1Ratio +
      RATES.ollaDistributionRadius2Ratio) + RATES.ollaDistributionRadius2Ratio /
      (RATES.ollaDistributionRadius1Ratio + RATES.ollaDistributionRadius2Ratio) = 1 := by
    norm_num [RATES.ollaDistributionRadius1Ratio, RATES.ollaDistributionRadius2Ratio]
  calc (st.update).2 * (RATES.ollaDistributionRadius1Ratio / (RATES.ollaDistributionRadius1Ratio +
          RATES.ollaDistributionRadius2Ratio)) + (st.update).2 * (RATES.ollaDistributionRadius2Ratio /
          (RATES.ollaDistributionRadius1Ratio + RATES.ollaDistributionRadius2Ratio))
      = (st.update).2 * (RATES.ollaDistributionRadius1Ratio / (RATES.ollaDistributionRadius1Ratio +
          RATES.ollaDistributionRadius2Ratio) + RATES.ollaDistributionRadius2Ratio /
          (RATES.ollaDistributionRadius1Ratio + RATES.ollaDistributionRadius2Ratio)) := by ring
    _ = (st.update).2 := by rw [hr, mul_one]

/-- C6 witness: an Olla holding 10 units at cell (7,7). -/
theorem olla_release_and_distribution_witness :
    (stOlla10.update).2 = jsMin stOlla10.waterLevel RATES.ollaWaterRelease ∧
    (stOlla10.update).1.waterLevel =
      stOlla10.waterLevel - jsMin stOlla10.waterLevel RATES.ollaWaterRelease ∧
    ((ollaNeighbors1 7 7).map fun _ => ollaReleasePerNeighbor1 7 7 (stOlla10.update).2).sum +
      ((ollaNeighbors2 7 7).map fun _ => ollaReleasePerNeighbor2 7 7 (stOlla10.update).2).sum =
      (stOlla10.update).2 :=
  olla_release_and_distribution stOlla10 7 7 rfl (by show (0 : ℚ) < 10; norm_num)
    (by norm_num) (by norm_num) (by norm_num) (by norm_num)

/-! ## C8 — level-4 weeds only spread downwind -/

theorem downwindFilter_east (x y : ℤ) (ns : List (ℤ × ℤ)) :
    downwindFilter "E" x y ns = ns.filter fun nk => nk.1 < x := by
  unfold downwindFilter
  rw [if_neg (by decide), if_pos rfl]

/-- C8: with wind direction "E", the weed-update step never changes a cell
other than itself unless that cell's x-coordinate is strictly smaller than
the updating cell's; and a cell whose weed level is below 4 never changes
any other cell at all. -/
theorem weed_spread_downwind_east (x y : ℤ) (g : Grid) (r1 r2 r3 : ℚ) :
    (∀ k : ℤ × ℤ, k ≠ (x, y) → updateWeeds x y g "E" r1 r2 r3 k ≠ g k → k.1 < x) ∧
    (∀ sq, g (x, y) = some sq → sq.weeds < 4 →
      ∀ k : ℤ × ℤ, k ≠ (x, y) → updateWeeds x y g "E" r1 r2 r3 k = g k) := by
  constructor
  · intro k hk hne
    rcases hg : g (x, y) with _ | sq
    · simp only [updateWeeds, hg] at hne
      exact absurd rfl hne
    · simp only [updateWeeds, hg] at hne
      by_cases hw4 : sq.weeds = 4 ∧ r2 < RATES.weedSpreadChance
      · rw [if_pos hw4] at hne
        by_cases hlen : (downwindFilter "E" x y (getNeighbors x y true 1)).length > 0
        · rw [if_pos hlen] at hne
          rcases hget : (downwindFilter "E" x y (getNeighbors x y true 1)).get?
              (⌊r3 * ((downwindFilter "E" x y (getNeighbors x y true 1)).length : ℚ)⌋).toNat
            with _ | t
          · simp only [hget] at hne
            simp only [if_neg hk] at hne
            exact absurd rfl hne
          · simp only [hget] at hne
            rcases hgt : g t with _ | nsq
            · simp only [hgt] at hne
              simp only [if_neg hk] at hne
              exact absurd rfl hne
            · simp only [hgt] at hne
              by_cases hsuit : nsq.weeds = 0 ∧ nsq.plant = none ∧ nsq.struct = none
              · rw [if_pos hsuit] at hne
                by_cases hkt : k = t
                · subst hkt
                  have hmem : k ∈ downwindFilter "E" x y (getNeighbors x y true 1) :=
                    List.get?_mem hget
                  rw [downwindFilter_east] at hmem
                  exact of_decide_eq_true (List.mem_filter.mp hmem).2
                · simp only [if_neg hkt, if_neg hk] at hne
                  exact absurd rfl hne
              · rw [if_neg hsuit] at hne
                simp only [if_neg hk] at hne
                exact absurd rfl hne
        · rw [if_neg hlen] at hne
          simp only [if_neg hk] at hne
          exact absurd rfl hne
      · rw [if_neg hw4] at hne
        simp only [if_neg hk] at hne
        exact absurd rfl hne
  · intro sq hg hlt k hk
    simp only [updateWeeds, hg]
    rw [if_neg (fun hc : sq.weeds = 4 ∧ _ => absurd hc.1 (Nat.ne_of_lt hlt))]
    simp only [if_neg hk]

theorem updateWeeds_gridWeed_eval :
    updateWeeds 5 5 gridWeed "E" 1 0 0 (4, 5) = some { sqEmpty with weeds := 1 } := by
  have e0 : gridWeed ((5 : ℤ), (5 : ℤ)) = some sqWeed4 := rfl
  simp only [updateWeeds, e0]
  rw [if_pos (⟨rfl, by norm_num [RATES.weedSpreadChance]⟩ :
    sqWeed4.weeds = 4 ∧ (0 : ℚ) < RATES.weedSpreadChance)]
  have edf : downwindFilter "E" 5 5 (getNeighbors 5 5 true 1) = [((4 : ℤ), (5 : ℤ))] := by decide
  rw [edf]
  rw [if_pos (by decide : ([((4 : ℤ), (5 : ℤ))]).length > 0)]
  have eidx : (⌊(0 : ℚ) * (([((4 : ℤ), (5 : ℤ))]).length : ℚ)⌋).toNat = 0 := by
    norm_num
  rw [eidx]
  have eget : ([((4 : ℤ), (5 : ℤ))]).get? 0 = some ((4 : ℤ), (5 : ℤ)) := rfl
  simp only [eget]
  have e45 : gridWeed ((4 : ℤ), (5 : ℤ)) = some sqEmpty := rfl
  simp only [e45]
  rw [if_pos (⟨rfl, rfl, rfl⟩ : sqEmpty.weeds = 0 ∧ sqEmpty.plant = none ∧ sqEmpty.struct = none)]
  rw [if_pos rfl]

/-- C8 witness: on a grid with a level-4 weed at (5,5) and an empty cell at
(4,5), wind "E" and favorable rolls, the update does change (4,5), which
lies strictly west of the weed. -/
theorem weed_spread_downwind_east_witness :
    updateWeeds 5 5 gridWeed "E" 1 0 0 (4, 5) ≠ gridWeed (4, 5) ∧ ((4 : ℤ), (5 : ℤ)).1 < 5 := by
  have e45 : gridWeed ((4 : ℤ), (5 : ℤ)) = some sqEmpty := rfl
  have hne : updateWeeds 5 5 gridWeed "E" 1 0 0 (4, 5) ≠ gridWeed (4, 5) := by
    rw [updateWeeds_gridWeed_eval, e45]
    intro h
    have h2 := congrArg (fun o => (o.map Square.weeds).getD 7) h
    exact absurd h2 (by decide)
  exact ⟨hne, (weed_spread_downwind_east 5 5 gridWeed 1 0 0).1 (4, 5) (by decide) hne⟩

/-! ## C9 — tilling/removal clears mirrored connection flags and preserves
connectivity symmetry -/

theorem opp_opp (d : Dir) : d.opp.opp = d := by cases d <;> rfl

theorem adj_adj (k : ℤ × ℤ) (d : Dir) : adj (adj k d) d.opp = k := by
  obtain ⟨a, b⟩ := k
  cases d <;> simp [adj, Dir.opp] <;> omega

theorem adj_left_inj {k k' : ℤ × ℤ} (d : Dir) (h : adj k d = adj k' d) : k = k' := by
  obtain ⟨a, b⟩ := k
  obtain ⟨a', b'⟩ := k'
  cases d <;> simp [adj, Prod.ext_iff] at h ⊢ <;> omega

theorem adj_ne (k : ℤ × ℤ) (d : Dir) : adj k d ≠ k := by
  obtain ⟨a, b⟩ := k
  cases d <;> simp [adj, Prod.ext_iff] <;> omega

theorem flagAt_clearNeighborConnections (x y : ℤ) (conns : Connections) (g : Grid)
    (k : ℤ × ℤ) (d : Dir) :
    flagAt (clearNeighborConnections x y conns g) k d =
      if conns.get d.opp = true ∧ k = adj (x, y) d.opp then false else flagAt g k d := by
  unfold flagAt clearNeighborConnections
  rcases hk : g k with _ | sq
  · simp only [hk]
    split <;> rfl
  · simp only [hk]
    rcases hs : sq.struct with _ | st
    · simp only [hs]
      split <;> rfl
    · simp only [hs]
      cases d <;>
        simp only [Dir.opp, adj, Connections.get] <;>
        split_ifs <;>
        simp_all [Prod.ext_iff] <;>
        omega

theorem connSymmetric_after_removal (x y : ℤ) (g : Grid) (conns : Connections)
    (hsym : ConnSymmetric g)
    (hmirror : ∀ d, flagAt g (x, y) d = conns.get d)
    (g' : Grid)
    (hflag : ∀ k d, flagAt g' k d =
      if k = (x, y) then false else flagAt (clearNeighborConnections x y conns g) k d) :
    ConnSymmetric g' := by
  intro k d hkd
  rw [hflag] at hkd
  by_cases hk : k = (x, y)
  · rw [if_pos hk] at hkd
    exact absurd hkd (by decide)
  · rw [if_neg hk, flagAt_clearNeighborConnections] at hkd
    by_cases hcl : conns.get d.opp = true ∧ k = adj (x, y) d.opp
    · rw [if_pos hcl] at hkd
      exact absurd hkd (by decide)
    · rw [if_neg hcl] at hkd
      rw [hflag]
      by_cases hadj : adj k d = (x, y)
      · exfalso
        apply hcl
        have h1 : flagAt g (adj k d) d.opp = true := hsym k d hkd
        rw [hadj] at h1
        refine ⟨by rw [← hmirror]; exact h1, ?_⟩
        rw [← hadj, adj_adj]
      · rw [if_neg hadj, flagAt_clearNeighborConnections, if_neg ?hne]
        · exact hsym k d hkd
        case hne =>
          rintro ⟨-, hc2⟩
          rw [opp_opp] at hc2
          exact hk (adj_left_inj d hc2)

theorem mirrored_flag_cleared (x y : ℤ) (g : Grid) (conns : Connections)
    (g' : Grid)
    (hflag : ∀ k d, flagAt g' k d =
      if k = (x, y) then false else flagAt (clearNeighborConnections x y conns g) k d)
    (d : Dir) (hd : conns.get d = true) :
    flagAt g' (adj (x, y) d) d.opp = false := by
  rw [hflag, if_neg (adj_ne (x, y) d), flagAt_clearNeighborConnections,
    if_pos ⟨by rw [opp_opp]; exact hd, by rw [opp_opp]⟩]

theorem flagAt_till (x y : ℤ) (g : Grid) (sq : Square) (st : Structure)
    (hg : g (x, y) = some sq) (hst : sq.struct = some st)
    (hty : st.type = "Trellis" ∨ st.type = "Net") (k : ℤ × ℤ) (d : Dir) :
    flagAt (till x y g) k d =
      if k = (x, y) then false
      else flagAt (clearNeighborConnections x y st.connections g) k d := by
  unfold till
  simp only [hg, hst]
  rw [if_pos hty]
  unfold flagAt
  beta_reduce
  by_cases hk : k = (x, y)
  · rw [if_pos hk, if_pos hk]
  · rw [if_neg hk, if_neg hk]

theorem flagAt_removeEntity (x y : ℤ) (g : Grid) (sq : Square) (st : Structure)
    (hg : g (x, y) = some sq) (hp : sq.plant = none) (hst : sq.struct = some st)
    (hty : st.type = "Trellis" ∨ st.type = "Net") (k : ℤ × ℤ) (d : Dir) :
    flagAt (removeEntity x y g).1 k d =
      if k = (x, y) then false
      else flagAt (clearNeighborConnections x y st.connections g) k d := by
  unfold removeEntity
  simp only [hg, hp, hst]
  rw [if_pos hty]
  unfold flagAt
  beta_reduce
  by_cases hk : k = (x, y)
  · rw [if_pos hk, if_pos hk]
  · rw [if_neg hk, if_neg hk]

/-- C9: on a symmetric grid, both tilling a cell holding a connected
Trellis/Net and removing that structure via RemoveEntity clear the
mirrored connection flag on every previously connected neighbor, and the
4-way connectivity flags remain symmetric after the command. -/
theorem till_removeEntity_clear_mirrored_flags (x y : ℤ) (g : Grid) (sq : Square)
    (st : Structure) (hsym : ConnSymmetric g) (hg : g (x, y) = some sq)
    (hst : sq.struct = some st) (hty : st.type = "Trellis" ∨ st.type = "Net") :
    (ConnSymmetric (till x y g) ∧
      ∀ d, st.connections.get d = true → flagAt (till x y g) (adj (x, y) d) d.opp = false) ∧
    (sq.plant = none →
      ConnSymmetric (removeEntity x y g).1 ∧
      ∀ d, st.connections.get d = true →
        flagAt (removeEntity x y g).1 (adj (x, y) d) d.opp = false) := by
  have hmirror : ∀ d, flagAt g (x, y) d = st.connections.get d := by
    intro d
    simp only [flagAt, hg, hst]
  refine ⟨⟨?_, ?_⟩, fun hp => ⟨?_, ?_⟩⟩
  · exact connSymmetric_after_removal x y g st.connections hsym hmirror _
      (flagAt_till x y g sq st hg hst hty)
  · exact mirrored_flag_cleared x y g st.connections _ (flagAt_till x y g sq st hg hst hty)
  · exact connSymmetric_after_removal x y g st.connections hsym hmirror _
      (flagAt_removeEntity x y g sq st hg hp hst hty)
  · exact mirrored_flag_cleared x y g st.connections _
      (flagAt_removeEntity x y g sq st hg hp hst hty)

theorem gridTrellis_symmetric : ConnSymmetric gridTrellis := by
  intro k d h
  by_cases h0 : k = ((0 : ℤ), (0 : ℤ))
  · subst h0
    cases d
    · exact absurd h (by decide)
    · show flagAt gridTrellis (adj (0, 0) Dir.right) Dir.right.opp = true
      decide
    · exact absurd h (by decide)
    · exact absurd h (by decide)
  · by_cases h1 : k = ((1 : ℤ), (0 : ℤ))
    · subst h1
      cases d
      · exact absurd h (by decide)
      · exact absurd h (by decide)
      · exact absurd h (by decide)
      · show flagAt gridTrellis (adj (1, 0) Dir.left) Dir.left.opp = true
        decide
    · simp only [flagAt, gridTrellis, if_neg h0, if_neg h1] at h
      exact absurd h (by decide)

/-- C9 witness: two mutually connected trellises at (0,0) and (1,0). -/
theorem till_removeEntity_clear_mirrored_flags_witness :
    (ConnSymmetric (till 0 0 gridTrellis) ∧
      ∀ d, stTrellisRight.connections.get d = true →
        flagAt (till 0 0 gridTrellis) (adj (0, 0) d) d.opp = false) ∧
    (({ sqEmpty with struct := some stTrellisRight } : Square).plant = none →
      ConnSymmetric (removeEntity 0 0 gridTrellis).1 ∧
      ∀ d, stTrellisRight.connections.get d = true →
        flagAt (removeEntity 0 0 gridTrellis).1 (adj (0, 0) d) d.opp = false) :=
  till_removeEntity_clear_mirrored_flags 0 0 gridTrellis
    { sqEmpty with struct := some stTrellisRight } stTrellisRight
    gridTrellis_symmetric rfl rfl (Or.inl rfl)

end GardeningSim
